import Mathlib

/-!
Shallow embedding of the yield-term-structure engine of this repository
(src/termstructures/yieldtermstructure.rs), together with the collaborator
contracts (base term structure, interest-rate inversion, quotes, day
counters) that the repository consumes but whose source files are not part
of the given tree; those are modelled from the specification and marked as
such in their doc comments.

Numeric values (`Time`, `DiscountFactor`, quote values) are modelled as
rationals; the claims under verification are structural (which computation
runs, with which arguments, and which failure is raised), not about
floating-point rounding.  Rust panics (out-of-bounds indexing,
`Option::unwrap` on `None`) are modelled as explicit error outcomes, and
the `assert!` failure sites are mapped to the error kinds the specification
assigns to them (InvalidQuote for an invalid jump quote, DomainError for a
non-positive jump multiplier and for the `d1 < d2` ordering assertion).
-/

namespace QuantLib

/-- Error outcomes of the engine.  The first four are the specification's
error kinds (§7); `indexOutOfBounds` and `unwrapNone` model Rust panics
from `Vec` indexing and `Option::unwrap`, which are not part of the
specification's taxonomy. -/
inductive Err where
  | outOfRange
  | invalidQuote
  | domainError
  | unresolved
  | indexOutOfBounds
  | unwrapNone
deriving DecidableEq, Repr

/-- A calendar day, totally ordered; modelled from the spec (the repository's
`time` module is not under src).  Ordering is lexicographic on
(year, month, day). -/
structure Date where
  day : Nat
  month : Nat
  year : Int
deriving DecidableEq, Repr

def Date.lt (a b : Date) : Prop :=
  a.year < b.year ∨ (a.year = b.year ∧
    (a.month < b.month ∨ (a.month = b.month ∧ a.day < b.day)))

instance : LT Date := ⟨Date.lt⟩

instance (a b : Date) : Decidable (a < b) :=
  inferInstanceAs (Decidable (a.year < b.year ∨ (a.year = b.year ∧
    (a.month < b.month ∨ (a.month = b.month ∧ a.day < b.day)))))

/-- Modelled from the spec: `Date::default()` of the missing `time` module.
Its concrete value is never observable through the claims (it is either
overwritten or the computation fails before reading it). -/
def dateDefault : Date := ⟨1, 1, 1⟩

/-- A market quote: a scalar with a validity flag (spec §6). -/
structure Quote where
  value : ℚ
  isValid : Bool
deriving DecidableEq, Repr

/-- Modelled from the spec: a day counter is consumed purely as a
year-fraction function of two dates (spec §6). -/
def DayCounter : Type := Date → Date → ℚ

/-- Compounding conventions (spec §3). -/
inductive Compounding where
  | simple
  | compounded
  | continuous
  | simpleThenCompounded
deriving DecidableEq, Repr

/-- Compounding frequency (spec §3). -/
inductive Frequency where
  | annual
  | semiannual
  | quarterly
  | monthly
deriving DecidableEq, Repr

/-- Modelled from the spec: `InterestRate` (the repository's
`interestrate.rs` is not under src).  The spec defines it as
(rate, day_counter, compounding, frequency) where the rate is a function of
the compound factor, the convention and the elapsed time via the §4.2
formulas; we record that determining tuple (compound factor and elapsed
time in place of the solved rate), which is a finer, faithful view:
equality of these records implies equality of the spec's rates. -/
structure InterestRate where
  compound : ℚ
  dayCounter : DayCounter
  comp : Compounding
  freq : Frequency
  time : ℚ

/-- Modelled from the spec: `implied_rate_with_time` inverts a compound
factor over an explicit elapsed time; it fails with DomainError if
`compound_factor <= 0` or `t <= 0` (spec §4.2). -/
def InterestRate.impliedRateWithTime (compound : ℚ) (dc : DayCounter)
    (comp : Compounding) (freq : Frequency) (t : ℚ) :
    Except Err InterestRate :=
  if compound ≤ 0 then .error .domainError
  else if t ≤ 0 then .error .domainError
  else .ok ⟨compound, dc, comp, freq, t⟩

/-- Modelled from the spec: `implied_rate` over a date pair uses
`t = day_counter.year_fraction(start_date, end_date)` and the same
inversion and DomainError checks as the explicit-time form (spec §4.2).
The two optional reference arguments are accepted and unused, as at every
call site in the repository (`None, None`). -/
def InterestRate.impliedRate (compound : ℚ) (dc : DayCounter)
    (comp : Compounding) (freq : Frequency) (d1 d2 : Date)
    (refCompound refTime : Option ℚ) : Except Err InterestRate :=
  InterestRate.impliedRateWithTime compound dc comp freq (dc d1 d2)

/-- Modelled from the spec: the base term structure holds the reference
date (optional until resolved), calendar, day counter, settlement days and
the validity bounds `max_date` / `max_time` (spec §4.1, §3). -/
structure Base where
  referenceDate : Option Date
  calendar : Option Unit
  dayCounter : DayCounter
  settlementDays : Int
  maxDate : Date
  maxTime : ℚ

/-- Modelled from the spec: the resolved reference date; accessing it
before resolution is an Unresolved error (spec §4.1, §7). -/
def Base.referenceDateE (b : Base) : Except Err Date :=
  match b.referenceDate with
  | some d => .ok d
  | none => .error .unresolved

/-- Modelled from the spec:
`time_from_reference(date) = day_counter.year_fraction(reference_date, date)`
(spec §4.1). -/
def Base.timeFromReference (b : Base) (d : Date) : Except Err ℚ := do
  let rd ← b.referenceDateE
  pure (b.dayCounter rd d)

/-- Modelled from the spec: `check_range_with_time(time, max_time,
extrapolate)` fails with OutOfRange if `time < 0`, or if `time > max_time`
and extrapolation is not allowed (spec §4.1). -/
def Base.checkRangeWithTime (t maxT : ℚ) (extrapolate : Bool) :
    Except Err Unit :=
  if t < 0 then .error .outOfRange
  else if ¬extrapolate ∧ maxT < t then .error .outOfRange
  else .ok ()

/-- Modelled from the spec: `check_range(date, ...)` fails with OutOfRange
if `date < reference_date`, or if `date > max_date` and extrapolation is
not allowed (spec §4.1). -/
def Base.checkRange (d rd maxD : Date) (extrapolate : Bool) :
    Except Err Unit :=
  if d < rd then .error .outOfRange
  else if ¬extrapolate ∧ maxD < d then .error .outOfRange
  else .ok ()

/-- Rust `Vec` indexing `v[n]`: panics (here: fails) when out of bounds. -/
def vecGet {α : Type} (l : List α) (n : Nat) : Except Err α :=
  match l.get? n with
  | some x => .ok x
  | none => .error .indexOutOfBounds

/-- Rust `Vec` index assignment `v[n] = x`: panics (here: fails) when out
of bounds. -/
def vecSet {α : Type} (l : List α) (n : Nat) (x : α) :
    Except Err (List α) :=
  if n < l.length then .ok (l.set n x) else .error .indexOutOfBounds

/-- Rust `Option::unwrap`: panics (here: fails) on `None`. -/
def optUnwrap {α : Type} (o : Option α) : Except Err α :=
  match o with
  | some x => .ok x
  | none => .error .unwrapNone

/-- Rust `Vec::resize_with(n, f)`: truncates or pads with `f ()` to
length `n`. -/
def resizeWith {α : Type} (l : List α) (n : Nat) (f : Unit → α) : List α :=
  l.take n ++ List.replicate (n - l.length) (f ())

/-- The global finite-difference step `dt = 0.0001`
(src/termstructures/yieldtermstructure.rs, `const dt`). -/
def dt : ℚ := 1 / 10000

/-- The yield term structure state
(src/termstructures/yieldtermstructure.rs, `struct YieldTermStructure`).
The underlying discount rule is a total function of time. -/
structure YieldTermStructure where
  base : Base
  jumps : List Quote
  jump_times : List ℚ
  jump_dates : List Date
  latest_reference : Option Date
  jumps_num : Nat
  discount_impl : Option (ℚ → ℚ)

namespace YieldTermStructure

def reference_date (c : YieldTermStructure) : Except Err Date :=
  c.base.referenceDateE

def time_from_reference (c : YieldTermStructure) (d : Date) :
    Except Err ℚ :=
  c.base.timeFromReference d

def max_time (c : YieldTermStructure) : ℚ := c.base.maxTime

def max_date (c : YieldTermStructure) : Date := c.base.maxDate

def day_counter (c : YieldTermStructure) : DayCounter := c.base.dayCounter

/-- One iteration of the jump-accumulation loop of `discount_with_time`
(lines 113-120 of yieldtermstructure.rs): read `jump_times[n]`; if it is
strictly between 0 and the query time, read the jump quote, require it
valid (`assert!(self.jumps[n].is_valid())`, spec error kind InvalidQuote)
and strictly positive (`assert!(this_jump > 0.0)`, spec error kind
DomainError), and multiply it into the accumulator. -/
def jumpStep (c : YieldTermStructure) (time : ℚ) (acc : ℚ) (n : Nat) :
    Except Err ℚ := do
  let jt ← vecGet c.jump_times n
  if 0 < jt ∧ jt < time then
    let q ← vecGet c.jumps n
    if q.isValid then
      if 0 < q.value then pure (acc * q.value)
      else .error .domainError
    else .error .invalidQuote
  else
    pure acc

/-- The jump-accumulation loop, folded over an explicit index list. -/
def jumpLoop (c : YieldTermStructure) (time : ℚ) :
    List Nat → ℚ → Except Err ℚ
  | [], acc => .ok acc
  | n :: ns, acc => do
      let acc2 ← c.jumpStep time acc n
      c.jumpLoop time ns acc2

/-- `discount_with_time` (yieldtermstructure.rs lines 103-123): range-check
the time, pass through to the discount rule when there are no jumps, and
otherwise accumulate the jump effect over the loop `for n in
0..=self.jumps_num` — faithfully INCLUSIVE of `jumps_num`, as in the
source — before multiplying the discount rule's value. -/
def discount_with_time (c : YieldTermStructure) (time : ℚ)
    (extrapolate : Bool) : Except Err ℚ := do
  Base.checkRangeWithTime time c.max_time extrapolate
  if c.jumps.isEmpty then
    let f ← optUnwrap c.discount_impl
    pure (f time)
  else
    let jump_effect ← c.jumpLoop time (List.range (c.jumps_num + 1)) 1
    let f ← optUnwrap c.discount_impl
    pure (jump_effect * f time)

/-- `discount(date, extrapolate)` delegates to `discount_with_time` at
`time_from_reference(date)` (yieldtermstructure.rs lines 99-101). -/
def discount (c : YieldTermStructure) (d : Date) (extrapolate : Bool) :
    Except Err ℚ := do
  let t ← c.time_from_reference d
  c.discount_with_time t extrapolate

/-- `zero_rate` (yieldtermstructure.rs lines 128-157): at the reference
date, a forward finite difference over `[0, dt]` inverted with
`implied_rate_with_time`; otherwise the discount at the date inverted with
`implied_rate` over the date pair.  Both branches use the caller-supplied
`result_day_counter`. -/
def zero_rate (c : YieldTermStructure) (date : Date)
    (result_day_counter : DayCounter) (comp : Compounding)
    (freq : Frequency) (extrapolate : Bool) : Except Err InterestRate := do
  let rd ← c.reference_date
  if date = rd then
    let df ← c.discount_with_time dt extrapolate
    let compound := 1 / df
    InterestRate.impliedRateWithTime compound result_day_counter comp freq dt
  else
    let df ← c.discount date extrapolate
    let compound := 1 / df
    InterestRate.impliedRate compound result_day_counter comp freq rd date
      none none

/-- `zero_rate_with_time` (yieldtermstructure.rs lines 159-177):
faithfully to the source, the elapsed time is replaced by `dt` when
`time == 0`, but the compound factor is `1 / discount_with_time(dt,
extrapolate)` UNCONDITIONALLY — the discount is sampled at `dt`, not at
the requested time — and the curve's own day counter is used. -/
def zero_rate_with_time (c : YieldTermStructure) (time : ℚ)
    (comp : Compounding) (freq : Frequency) (extrapolate : Bool) :
    Except Err InterestRate := do
  let time2 := if time = 0 then dt else time
  let df ← c.discount_with_time dt extrapolate
  let compound := 1 / df
  InterestRate.impliedRateWithTime compound c.day_counter comp freq time2

/-- `forward_rate` (yieldtermstructure.rs lines 184-213).  Equal dates:
range-check the date, recenter `t1 = max(time_from_reference(d1) - dt/2,
0)`, `t2 = t1 + dt`, compound the two discounts with extrapolation forced
on, invert over elapsed `dt` with the caller's day counter.  Distinct
dates: `assert!(d1 < d2)` (spec error kind DomainError), then invert the
discount ratio over the date pair. -/
def forward_rate (c : YieldTermStructure) (d1 d2 : Date)
    (result_day_counter : DayCounter) (comp : Compounding)
    (freq : Frequency) (extrapolate : Bool) : Except Err InterestRate := do
  if d1 = d2 then
    let rd ← c.reference_date
    Base.checkRange d1 rd c.max_date extrapolate
    let t ← c.time_from_reference d1
    let t1 := max (t - dt / 2) 0
    let t2 := t1 + dt
    let df1 ← c.discount_with_time t1 true
    let df2 ← c.discount_with_time t2 true
    InterestRate.impliedRateWithTime (df1 / df2) result_day_counter comp
      freq dt
  else
    if d1 < d2 then
      let df1 ← c.discount d1 extrapolate
      let df2 ← c.discount d2 extrapolate
      InterestRate.impliedRate (df1 / df2) result_day_counter comp freq
        d1 d2 none none
    else .error .domainError

/-- `forward_rate_with_time` (yieldtermstructure.rs lines 215-238).  Equal
times: range-check `t1`, recenter around the instant with the same
`dt`-halving scheme and extrapolation forced on.  Distinct times: NO
ordering check (the `QL_REQUIRE(t2 > t1, ...)` of the original is a
comment in the source), just the two discounts under the caller's flag.
Either way the final inversion uses the curve's own day counter and the
elapsed time `t2 - t1` of the (possibly recentred) times; the
`result_day_counter` parameter is never read. -/
def forward_rate_with_time (c : YieldTermStructure) (t1 t2 : ℚ)
    (result_day_counter : DayCounter) (comp : Compounding)
    (freq : Frequency) (extrapolate : Bool) : Except Err InterestRate := do
  if t2 = t1 then
    Base.checkRangeWithTime t1 c.max_time extrapolate
    let t1m := max (t1 - dt / 2) 0
    let t2m := t1m + dt
    let df1 ← c.discount_with_time t1m true
    let df2 ← c.discount_with_time t2m true
    InterestRate.impliedRateWithTime (df1 / df2) c.day_counter comp freq
      (t2m - t1m)
  else
    let df1 ← c.discount_with_time t1 extrapolate
    let df2 ← c.discount_with_time t2 extrapolate
    InterestRate.impliedRateWithTime (df1 / df2) c.day_counter comp freq
      (t2 - t1)

/-- The date-assignment loop of `set_jumps` (yieldtermstructure.rs lines
71-73): `jump_dates[n] = Date::new(31, December, y + n)` over the given
index list. -/
def setDatesLoop (y : Int) : List Nat → List Date → Except Err (List Date)
  | [], jd => .ok jd
  | n :: ns, jd => do
      let jd2 ← vecSet jd n ⟨31, 12, y + n⟩
      setDatesLoop y ns jd2

/-- The time-recomputation loop of `set_jumps` (yieldtermstructure.rs
lines 75-77): `jump_times[n] = time_from_reference(jump_dates[n])` over
the given index list. -/
def setTimesLoop (c : YieldTermStructure) :
    List Nat → List ℚ → Except Err (List ℚ)
  | [], jt => .ok jt
  | n :: ns, jt => do
      let d ← vecGet c.jump_dates n
      let t ← c.time_from_reference d
      let jt2 ← vecSet jt n t
      setTimesLoop c ns jt2

/-- `set_jumps` (yieldtermstructure.rs lines 64-79).  When jump dates are
absent but jump quotes are present, resize both jump vectors to
`jumps_num` and default the dates to December 31 of successive years from
the reference year; then (always) recompute every jump time from its jump
date, and record the reference date used.  Both loops faithfully run `for
n in 0..=jumps_num`, INCLUSIVE of `jumps_num`, as in the source. -/
def set_jumps (c : YieldTermStructure) : Except Err YieldTermStructure := do
  let c1 ←
    if c.jump_dates.isEmpty ∧ ¬c.jumps.isEmpty then do
      let jt := resizeWith c.jump_times c.jumps_num (fun _ => (0 : ℚ))
      let jd := resizeWith c.jump_dates c.jumps_num (fun _ => dateDefault)
      let rd ← c.base.referenceDateE
      let jd2 ← setDatesLoop rd.year (List.range (c.jumps_num + 1)) jd
      pure { c with jump_times := jt, jump_dates := jd2 }
    else
      pure c
  let jt2 ← setTimesLoop c1 (List.range (c1.jumps_num + 1)) c1.jump_times
  let rd ← c1.base.referenceDateE
  .ok { c1 with jump_times := jt2, latest_reference := some rd }

end YieldTermStructure

/-! Concrete inputs used to evaluate the embedding, and small helper
lemmas for stepping the `Except` monad. -/

/-- A day counter counting whole calendar years. -/
def dcYear : DayCounter := fun a b => ((b.year - a.year : ℤ) : ℚ)

/-- A second, different day counter (twice the year count), used to vary
the `result_day_counter` argument. -/
def dcTwice : DayCounter := fun a b => (2 * (b.year - a.year : ℤ) : ℤ)

/-- Reference date 2024-01-01. -/
def refDate2024 : Date := ⟨1, 1, 2024⟩

/-- A resolved base: reference 2024-01-01, validity up to 2030-12-31 and
`max_time = 10`. -/
def baseEx : Base :=
  { referenceDate := some refDate2024, calendar := some (),
    dayCounter := dcYear, settlementDays := 0,
    maxDate := ⟨31, 12, 2030⟩, maxTime := 10 }

/-- The same base with `max_time = 1`. -/
def baseLow : Base := { baseEx with maxTime := 1 }

/-- A curve with one jump (value 1, valid, jump time 1/2) and constant
discount rule 1. -/
def curveJ1 : YieldTermStructure :=
  { base := baseEx, jumps := [⟨1, true⟩], jump_times := [1 / 2],
    jump_dates := [⟨31, 12, 2024⟩], latest_reference := none,
    jumps_num := 1, discount_impl := some (fun _ => 1) }

/-- A curve with two jumps (values 2 and 3, valid, jump times 1/2 and
3/4) and constant discount rule 1. -/
def curveJ2 : YieldTermStructure :=
  { base := baseEx, jumps := [⟨2, true⟩, ⟨3, true⟩],
    jump_times := [1 / 2, 3 / 4],
    jump_dates := [⟨31, 12, 2024⟩, ⟨31, 12, 2025⟩],
    latest_reference := none, jumps_num := 2,
    discount_impl := some (fun _ => 1) }

/-- A jump-free curve with discount rule `1 / (1 + t)`. -/
def curveN : YieldTermStructure :=
  { base := baseEx, jumps := [], jump_times := [], jump_dates := [],
    latest_reference := none, jumps_num := 0,
    discount_impl := some (fun t => 1 / (1 + t)) }

/-- A jump-free curve with constant discount rule 1. -/
def curveFlat : YieldTermStructure :=
  { base := baseEx, jumps := [], jump_times := [], jump_dates := [],
    latest_reference := none, jumps_num := 0,
    discount_impl := some (fun _ => 1) }

/-- A jump-free curve with constant discount rule 1 and `max_time = 1`. -/
def curveLow : YieldTermStructure :=
  { base := baseLow, jumps := [], jump_times := [], jump_dates := [],
    latest_reference := none, jumps_num := 0,
    discount_impl := some (fun _ => 1) }

/-- A freshly constructed curve with one jump quote and no jump dates, as
`set_jumps` receives it at construction. -/
def curveS1 : YieldTermStructure :=
  { base := baseEx, jumps := [⟨1, true⟩], jump_times := [],
    jump_dates := [], latest_reference := none, jumps_num := 1,
    discount_impl := some (fun _ => 1) }

/-- A freshly constructed curve with two jump quotes and no jump dates. -/
def curveS2 : YieldTermStructure :=
  { base := baseEx, jumps := [⟨1, true⟩, ⟨2, true⟩], jump_times := [],
    jump_dates := [], latest_reference := none, jumps_num := 2,
    discount_impl := some (fun _ => 1) }

theorem okBind {A B : Type} (a : A) (f : A → Except Err B) :
    (Except.ok a : Except Err A) >>= f = f a := rfl

theorem errorBind {A B : Type} (e : Err) (f : A → Except Err B) :
    (Except.error e : Except Err A) >>= f = Except.error e := rfl

theorem rangeTwo : List.range 2 = [0, 1] := by decide

theorem rangeThree : List.range 3 = [0, 1, 2] := by decide

theorem date_lt_asymm {a b : Date} (h : a < b) : ¬b < a := by
  rcases h with h1 | ⟨he, h2 | ⟨hm, h3⟩⟩ <;>
    rintro (g1 | ⟨ge, g2 | ⟨gm, g3⟩⟩) <;> omega

theorem date_ne_of_lt {a b : Date} (h : a < b) : a ≠ b := by
  rintro rfl
  exact date_lt_asymm h h


/-- Tactic helper: a successful bind splits into a successful first step
and a successful continuation. -/
theorem bind_eq_ok {A B : Type} {x : Except Err A} {f : A → Except Err B}
    {r : B} (h : x >>= f = .ok r) : ∃ a, x = .ok a ∧ f a = .ok r := by
  cases x with
  | error e => exact Except.noConfusion (errorBind e f ▸ h)
  | ok a => exact ⟨a, rfl, h⟩

/-- Tactic helper: what a successful rate inversion returns. -/
theorem impliedRateWithTime_ok {compound : ℚ} {dc : DayCounter}
    {comp : Compounding} {freq : Frequency} {t : ℚ} {r : InterestRate}
    (h : InterestRate.impliedRateWithTime compound dc comp freq t = .ok r) :
    r = ⟨compound, dc, comp, freq, t⟩ := by
  unfold InterestRate.impliedRateWithTime at h
  split_ifs at h
  exact (Except.ok.inj h).symm

/-- Claim C1: for a curve with a non-empty jump list and a time passing the
range check, the claim expects `jump_effect * discount_impl(t)` with the
jump product taken over indices `0..jumps_num` (exclusive).  The source
instead loops `for n in 0..=jumps_num` and reads `jump_times[jumps_num]`,
one past the end: on a well-formed one-jump curve the query fails with an
out-of-bounds panic instead of returning the product. -/
theorem claim_C1 :
    curveJ1.discount_with_time 1 false = .error .indexOutOfBounds := by
  norm_num [YieldTermStructure.discount_with_time,
    YieldTermStructure.jumpLoop, YieldTermStructure.jumpStep,
    Base.checkRangeWithTime, vecGet, optUnwrap, curveJ1, baseEx,
    YieldTermStructure.max_time, dt, rangeTwo, okBind, errorBind]

/-- Claim C2: on a jumped curve with `max_time = 10`, querying time 11
without extrapolation fails with OutOfRange, and a negative time fails
with OutOfRange; but the same query WITH extrapolation, which the claim
says returns a value, instead dies in the inclusive jump loop with an
out-of-bounds panic. -/
theorem claim_C2 :
    curveJ1.discount_with_time 11 false = .error .outOfRange ∧
    curveJ1.discount_with_time 11 true = .error .indexOutOfBounds ∧
    curveJ1.discount_with_time (-1) false = .error .outOfRange := by
  refine ⟨?_, ?_, ?_⟩ <;>
    norm_num [YieldTermStructure.discount_with_time,
      YieldTermStructure.jumpLoop, YieldTermStructure.jumpStep,
      Base.checkRangeWithTime, vecGet, optUnwrap, curveJ1, baseEx,
      YieldTermStructure.max_time, dt, rangeTwo, okBind, errorBind]

/-- Claim C3: `zero_rate` takes the instantaneous branch exactly when the
queried date equals the reference date, inverting
`1 / discount_with_time(dt, extrapolate)` over elapsed `dt`, and otherwise
inverts `1 / discount(date, extrapolate)` over the date pair
`(reference_date, date)` — in both branches with the caller-supplied
result day counter. -/
theorem claim_C3 (c : YieldTermStructure) (date : Date) (rdc : DayCounter)
    (comp : Compounding) (freq : Frequency) (ext : Bool) :
    c.zero_rate date rdc comp freq ext =
      c.reference_date >>= fun rd =>
        if date = rd then
          c.discount_with_time dt ext >>= fun df =>
            InterestRate.impliedRateWithTime (1 / df) rdc comp freq dt
        else
          c.discount date ext >>= fun df =>
            InterestRate.impliedRate (1 / df) rdc comp freq rd date
              none none := rfl

/-- Claim C4: the claim says `zero_rate_with_time` at a strictly positive
time `t` compounds `1 / discount_with_time(t, extrapolate)`.  The source
instead compounds `1 / discount_with_time(dt, extrapolate)`
unconditionally: on the curve `1 / (1 + t)` at `t = 1` the compound
factor is `1 + dt = 10001/10000`, not the claimed `2`. -/
theorem claim_C4 :
    curveN.zero_rate_with_time 1 .continuous .annual false =
      InterestRate.impliedRateWithTime (10001 / 10000) curveN.day_counter
        .continuous .annual 1 ∧
    curveN.zero_rate_with_time 1 .continuous .annual false ≠
      (curveN.discount_with_time 1 false >>= fun df =>
        InterestRate.impliedRateWithTime (1 / df) curveN.day_counter
          .continuous .annual 1) := by
  constructor
  · norm_num [YieldTermStructure.zero_rate_with_time,
      YieldTermStructure.discount_with_time, Base.checkRangeWithTime,
      optUnwrap, curveN, baseEx, YieldTermStructure.max_time,
      YieldTermStructure.day_counter, dt, InterestRate.impliedRateWithTime,
      okBind, errorBind]
  · norm_num [YieldTermStructure.zero_rate_with_time,
      YieldTermStructure.discount_with_time, Base.checkRangeWithTime,
      optUnwrap, curveN, baseEx, YieldTermStructure.max_time,
      YieldTermStructure.day_counter, dt, InterestRate.impliedRateWithTime,
      okBind, errorBind, InterestRate.mk.injEq]

/-- Claim C5: for an equal-date query passing the range check,
`forward_rate` recenters `t1 = max(time_from_reference(d) - dt/2, 0)`,
`t2 = t1 + dt`, compounds the two discounts with extrapolation forced on,
and inverts over elapsed `dt` with the caller-supplied day counter. -/
theorem claim_C5 (c : YieldTermStructure) (d : Date) (rdc : DayCounter)
    (comp : Compounding) (freq : Frequency) (ext : Bool)
    (h : (c.reference_date >>= fun rd =>
            Base.checkRange d rd c.max_date ext) = .ok ()) :
    c.forward_rate d d rdc comp freq ext =
      c.time_from_reference d >>= fun t =>
        c.discount_with_time (max (t - dt / 2) 0) true >>= fun df1 =>
          c.discount_with_time (max (t - dt / 2) 0 + dt) true >>= fun df2 =>
            InterestRate.impliedRateWithTime (df1 / df2) rdc comp freq
              dt := by
  unfold YieldTermStructure.forward_rate
  rw [if_pos rfl]
  cases hrd : c.reference_date with
  | error e =>
      rw [hrd, errorBind] at h
      exact Except.noConfusion h
  | ok rd =>
      rw [hrd, okBind] at h
      rw [okBind, h, okBind]

/-- Witness for claim C5 at a concrete jump-free curve and the reference
date itself. -/
theorem claim_C5_witness :
    curveFlat.forward_rate refDate2024 refDate2024 dcYear .continuous
        .annual false =
      curveFlat.time_from_reference refDate2024 >>= fun t =>
        curveFlat.discount_with_time (max (t - dt / 2) 0) true >>= fun df1 =>
          curveFlat.discount_with_time (max (t - dt / 2) 0 + dt) true >>=
            fun df2 =>
              InterestRate.impliedRateWithTime (df1 / df2) dcYear .continuous
                .annual dt :=
  claim_C5 curveFlat refDate2024 dcYear .continuous .annual false
    (by
      have hlt1 : ¬refDate2024 < refDate2024 := by decide
      have hlt2 : ¬(⟨31, 12, 2030⟩ : Date) < refDate2024 := by decide
      norm_num [YieldTermStructure.reference_date, Base.referenceDateE,
        Base.checkRange, curveFlat, baseEx, YieldTermStructure.max_date,
        okBind, hlt1, hlt2])

/-- Claim C6: on distinct dates, `forward_rate` with `d1 > d2` fails with
DomainError (the ordering assertion), and with `d1 < d2` it inverts the
discount ratio over the date pair under the caller's flag and day
counter. -/
theorem claim_C6 (c : YieldTermStructure) (d1 d2 : Date) (rdc : DayCounter)
    (comp : Compounding) (freq : Frequency) (ext : Bool) :
    (d2 < d1 →
      c.forward_rate d1 d2 rdc comp freq ext = .error .domainError) ∧
    (d1 < d2 →
      c.forward_rate d1 d2 rdc comp freq ext =
        c.discount d1 ext >>= fun df1 =>
          c.discount d2 ext >>= fun df2 =>
            InterestRate.impliedRate (df1 / df2) rdc comp freq d1 d2
              none none) := by
  constructor
  · intro h
    have hne : d1 ≠ d2 := (date_ne_of_lt h).symm
    have hnlt : ¬d1 < d2 := date_lt_asymm h
    unfold YieldTermStructure.forward_rate
    rw [if_neg hne, if_neg hnlt]
  · intro h
    have hne : d1 ≠ d2 := date_ne_of_lt h
    unfold YieldTermStructure.forward_rate
    rw [if_neg hne, if_pos h]

/-- Witness for claim C6: both ordering branches at concrete dates one
year apart. -/
theorem claim_C6_witness :
    curveFlat.forward_rate ⟨1, 1, 2025⟩ ⟨1, 1, 2024⟩ dcYear .continuous
        .annual true = .error .domainError ∧
    curveFlat.forward_rate ⟨1, 1, 2024⟩ ⟨1, 1, 2025⟩ dcYear .continuous
        .annual true =
      curveFlat.discount ⟨1, 1, 2024⟩ true >>= fun df1 =>
        curveFlat.discount ⟨1, 1, 2025⟩ true >>= fun df2 =>
          InterestRate.impliedRate (df1 / df2) dcYear .continuous .annual
            ⟨1, 1, 2024⟩ ⟨1, 1, 2025⟩ none none :=
  ⟨(claim_C6 curveFlat ⟨1, 1, 2025⟩ ⟨1, 1, 2024⟩ dcYear .continuous .annual
      true).1 (by decide),
   (claim_C6 curveFlat ⟨1, 1, 2024⟩ ⟨1, 1, 2025⟩ dcYear .continuous .annual
      true).2 (by decide)⟩

/-- Counterexample to claim C7 as stated: with `t2 < t1` but `t1` beyond
`max_time` and extrapolation off, `forward_rate_with_time` fails with
OutOfRange (raised by the first discount query), not with DomainError —
there is no upfront ordering check in the time-based query. -/
theorem claim_C7_counterexample :
    curveLow.forward_rate_with_time 5 3 dcYear .continuous .annual false =
      .error .outOfRange ∧
    (Except.error Err.outOfRange : Except Err InterestRate) ≠
      .error .domainError := by
  constructor
  · norm_num [YieldTermStructure.forward_rate_with_time,
      YieldTermStructure.discount_with_time, Base.checkRangeWithTime,
      curveLow, baseLow, baseEx, YieldTermStructure.max_time, optUnwrap,
      okBind, errorBind]
  · simp

/-- Claim C7, amended: when both discount lookups succeed, a query with
`t2 < t1` does fail with DomainError — raised by the rate inversion on
the non-positive elapsed time `t2 - t1`, the source's own ordering check
being commented out. -/
theorem claim_C7 (c : YieldTermStructure) (t1 t2 : ℚ) (rdc : DayCounter)
    (comp : Compounding) (freq : Frequency) (ext : Bool) (v1 v2 : ℚ)
    (hlt : t2 < t1)
    (h1 : c.discount_with_time t1 ext = .ok v1)
    (h2 : c.discount_with_time t2 ext = .ok v2) :
    c.forward_rate_with_time t1 t2 rdc comp freq ext =
      .error .domainError := by
  have hne : t2 ≠ t1 := ne_of_lt hlt
  unfold YieldTermStructure.forward_rate_with_time
  rw [if_neg hne, h1, okBind, h2, okBind]
  unfold InterestRate.impliedRateWithTime
  split_ifs with hA hB
  · rfl
  · rfl
  · exact absurd (by linarith : t2 - t1 ≤ 0) hB

/-- Witness for the amended claim C7 at a concrete jump-free curve with
both times in range. -/
theorem claim_C7_witness :
    curveFlat.forward_rate_with_time 2 1 dcYear .continuous .annual false =
      .error .domainError :=
  claim_C7 curveFlat 2 1 dcYear .continuous .annual false 1 1
    (by norm_num)
    (by norm_num [YieldTermStructure.discount_with_time,
      Base.checkRangeWithTime, curveFlat, baseEx,
      YieldTermStructure.max_time, optUnwrap, okBind])
    (by norm_num [YieldTermStructure.discount_with_time,
      Base.checkRangeWithTime, curveFlat, baseEx,
      YieldTermStructure.max_time, optUnwrap, okBind])

/-- Claim C8: the claim expects `set_jumps` on a curve with one jump quote
and no jump dates to default the dates and establish the parallel-vector
invariant.  The source's assignment loops run `for n in 0..=jumps_num`
and write one past the resized vectors, so the call fails with an
out-of-bounds panic and the invariant is never established. -/
theorem claim_C8 : curveS1.set_jumps = .error .indexOutOfBounds := by
  norm_num [YieldTermStructure.set_jumps, YieldTermStructure.setDatesLoop,
    YieldTermStructure.setTimesLoop, resizeWith, vecSet, vecGet,
    Base.referenceDateE, curveS1, baseEx, refDate2024, rangeTwo,
    okBind, errorBind, dateDefault]

/-- Claim C9: the claim asserts every index used by the jump loops is
strictly below the jump count `k`.  The source's inclusive ranges access
index `k` itself: both the jump-accumulation loop of
`discount_with_time` (two-jump curve) and the loops of `set_jumps`
(two-quote curve) fail with an out-of-bounds panic. -/
theorem claim_C9 :
    curveJ2.discount_with_time 5 true = .error .indexOutOfBounds ∧
    curveS2.set_jumps = .error .indexOutOfBounds := by
  constructor
  · norm_num [YieldTermStructure.discount_with_time,
      YieldTermStructure.jumpLoop, YieldTermStructure.jumpStep,
      Base.checkRangeWithTime, vecGet, optUnwrap, curveJ2, baseEx,
      YieldTermStructure.max_time, dt, rangeThree, okBind, errorBind]
  · norm_num [YieldTermStructure.set_jumps, YieldTermStructure.setDatesLoop,
      YieldTermStructure.setTimesLoop, resizeWith, vecSet, vecGet,
      Base.referenceDateE, curveS2, baseEx, refDate2024, rangeThree,
      okBind, errorBind, dateDefault]

/-- Claim C10: `forward_rate_with_time` never reads its
`result_day_counter` parameter — two calls differing only there are
equal — and every successful result carries the curve's own day counter
and the elapsed time of the final inversion (`t2 - t1` for distinct
times, `dt` for the recentred degenerate branch, where the mutated times
satisfy `t2 - t1 = dt`). -/
theorem claim_C10 (c : YieldTermStructure) (t1 t2 : ℚ)
    (rdc rdc2 : DayCounter) (comp : Compounding) (freq : Frequency)
    (ext : Bool) :
    c.forward_rate_with_time t1 t2 rdc comp freq ext =
      c.forward_rate_with_time t1 t2 rdc2 comp freq ext ∧
    ∀ r : InterestRate,
      c.forward_rate_with_time t1 t2 rdc comp freq ext = .ok r →
        r.dayCounter = c.day_counter ∧
        r.time = if t2 = t1 then dt else t2 - t1 := by
  constructor
  · rfl
  · intro r h
    unfold YieldTermStructure.forward_rate_with_time at h
    by_cases ht : t2 = t1
    · rw [if_pos ht] at h
      obtain ⟨u, hc, h⟩ := bind_eq_ok h
      obtain ⟨v1, h1, h⟩ := bind_eq_ok h
      obtain ⟨v2, h2, h⟩ := bind_eq_ok h
      rw [impliedRateWithTime_ok h]
      rw [if_pos ht]
      exact ⟨rfl, by ring⟩
    · rw [if_neg ht] at h
      obtain ⟨v1, h1, h⟩ := bind_eq_ok h
      obtain ⟨v2, h2, h⟩ := bind_eq_ok h
      rw [impliedRateWithTime_ok h]
      rw [if_neg ht]
      exact ⟨rfl, rfl⟩

/-- Witness for claim C10 at a concrete jump-free curve, two distinct
in-range times and two different result day counters. -/
theorem claim_C10_witness :
    curveFlat.forward_rate_with_time 1 2 dcYear .continuous .annual true =
      curveFlat.forward_rate_with_time 1 2 dcTwice .continuous .annual
        true ∧
    InterestRate.dayCounter
        ⟨1, curveFlat.day_counter, .continuous, .annual, 1⟩ =
      curveFlat.day_counter ∧
    InterestRate.time ⟨1, curveFlat.day_counter, .continuous, .annual, 1⟩ =
      (if (2 : ℚ) = 1 then dt else 2 - 1) := by
  refine ⟨(claim_C10 curveFlat 1 2 dcYear dcTwice .continuous .annual
    true).1, ?_⟩
  have hok : curveFlat.forward_rate_with_time 1 2 dcYear .continuous
      .annual true =
      .ok ⟨1, curveFlat.day_counter, .continuous, .annual, 1⟩ := by
    norm_num [YieldTermStructure.forward_rate_with_time,
      YieldTermStructure.discount_with_time, Base.checkRangeWithTime,
      curveFlat, baseEx, YieldTermStructure.max_time,
      YieldTermStructure.day_counter, optUnwrap,
      InterestRate.impliedRateWithTime, okBind, errorBind]
  exact (claim_C10 curveFlat 1 2 dcYear dcTwice .continuous .annual
    true).2 _ hok

end QuantLib
